import Mathlib

/-!
Shallow embedding of the article visibility/scheduling core of the blog
Eleventy configuration (src/.eleventy.js and the unnamed earlier variant
src/unnamed/part_000), together with theorems settling the frozen claims.

Modelling conventions:
* JavaScript frontmatter values are modelled by `Val` (booleans, numbers,
  strings); JavaScript truthiness is `Val.truthy`.
* A Luxon `DateTime` built by `DateTime.fromJSDate(value, \x7bzone: "UTC"\x7d)`
  is either valid (its `valueOf()` is the epoch-millisecond instant, an
  integer here) or invalid (missing field or unparseable `Date`; its
  `valueOf()` is `NaN`, and every `<`/`>=` comparison against `NaN` is
  false).  We model such a date as `Option Int`: `some ms` for a valid
  instant, `none` for missing/invalid.
* `process.env` entries are `Option String` (`none` = unset);
  `process.env.X = true` stores the string "true".
* JavaScript `Array.prototype.sort` is stable (ES2019) and the comparator
  `b.date - a.date` induces the total preorder "later date first", so the
  collection sort is modelled by `List.mergeSort` with `dateDescLE`.
-/

namespace Blog

/-- A JavaScript frontmatter value: boolean, number or string. -/
inductive Val where
  | bool (b : Bool)
  | num (n : Int)
  | str (s : String)
deriving DecidableEq, Repr

/-- JavaScript truthiness of a frontmatter value
(`false`, `0` and the empty string are falsy). -/
def Val.truthy : Val → Bool
  | .bool b => b
  | .num n => n != 0
  | .str s => s != ""

/-- One Eleventy content item as seen by the collection callbacks.
`date` is the top-level item date (always a valid instant, used by the sort
comparator `b.date - a.date`); `dataDate` is the frontmatter `data.date`
(`none` when missing or not a parseable `Date`); `published` is the
frontmatter `published` field (`none` when the field is absent, matching
the `"published" in article.data` presence test); `slug` stands for the
identity/content fields that pass through the filter unchanged. -/
structure ContentItem where
  date : Int
  dataDate : Option Int
  published : Option Val
  slug : String
deriving DecidableEq, Repr

/-- The process environment slice the configuration reads. -/
structure Env where
  BUILD_DRAFTS : Option String
  ELEVENTY_RUN_MODE : Option String
deriving DecidableEq, Repr

/-- JavaScript truthiness of an environment variable:
unset and the empty string are falsy, any other string is truthy. -/
def envTruthy : Option String → Bool
  | none => false
  | some s => s != ""

/-- The build-mode flag of src/.eleventy.js:
`process.env.BUILD_DRAFTS === "true"`. -/
def showAllArticles (e : Env) : Bool :=
  e.BUILD_DRAFTS == some "true"

/-- The date test of the filter, `now >= articleDate` (line 39 of src/.eleventy.js):
millisecond comparison for a valid date, false when `articleDate` is invalid
(comparison against `NaN`). -/
def nowGeDate (now : Int) (d : Option Int) : Bool :=
  match d with
  | some ms => decide (ms ≤ now)
  | none => false

/-- The truthiness test `article.data?.published`
(`undefined` when the field is absent, hence falsy). -/
def publishedTruthy (a : ContentItem) : Bool :=
  match a.published with
  | some v => v.truthy
  | none => false

/-- The `articles` filter callback of src/.eleventy.js (lines 35-40):
keep everything when `process.env.BUILD_DRAFTS === "true"`, otherwise
require `"published" in article.data && article.data?.published
&& now >= articleDate`. -/
def articleFilter (buildDrafts : Option String) (now : Int) (a : ContentItem) : Bool :=
  if buildDrafts == some "true" then true
  else a.published.isSome && publishedTruthy a && nowGeDate now a.dataDate

/-- The `articles` filter callback of src/unnamed/part_000 (lines 33-38):
identical except that the draft escape tests `process.env.BUILD_DRAFTS`
for truthiness instead of strict equality with "true". -/
def articleFilterLoose (buildDrafts : Option String) (now : Int) (a : ContentItem) : Bool :=
  if envTruthy buildDrafts then true
  else a.published.isSome && publishedTruthy a && nowGeDate now a.dataDate

/-- The sort comparator `(a, b) => b.date - a.date`: `a` sorts no later than
`b` exactly when the comparator is `<= 0`, i.e. `b.date <= a.date`. -/
def dateDescLE (a b : ContentItem) : Bool :=
  decide (b.date ≤ a.date)

/-- The stable date-descending sort `.sort((a, b) => b.date - a.date)`. -/
def sortByDateDesc (l : List ContentItem) : List ContentItem :=
  l.mergeSort dateDescLE

/-- The `articles` collection of src/.eleventy.js (lines 33-44):
filter, then stable sort by date descending.  `items` is the output of the
upstream `getFilteredByTag("articles")` capability; `now` is the clock
reading `DateTime.utc()` used for this filtering pass. -/
def articlesCollection (e : Env) (now : Int) (items : List ContentItem) : List ContentItem :=
  sortByDateDesc (items.filter (articleFilter e.BUILD_DRAFTS now))

/-- The `latestArticles` collection of src/.eleventy.js (lines 45-56):
the same filter and sort followed by `.slice(0, 9)`. -/
def latestArticlesCollection (e : Env) (now : Int) (items : List ContentItem) : List ContentItem :=
  (sortByDateDesc (items.filter (articleFilter e.BUILD_DRAFTS now))).take 9

/-- Modelled from the spec: the parameterized `selectLatest(items, ctx, limit)` operation,
`selectPublished` truncated to its first `limit` elements.  The source
instantiates it at `limit = 9` (`.slice(0, 9)`). -/
def selectLatest (e : Env) (now : Int) (items : List ContentItem) (limit : Nat) : List ContentItem :=
  (articlesCollection e now items).take limit

/-- The `articles` collection of src/unnamed/part_000 (lines 31-42). -/
def articlesCollectionLoose (e : Env) (now : Int) (items : List ContentItem) : List ContentItem :=
  sortByDateDesc (items.filter (articleFilterLoose e.BUILD_DRAFTS now))

/-- The `isDateInFuture` filter of src/.eleventy.js (lines 21-25):
`date > now` on the UTC instants, false when the date is invalid
(comparison against `NaN`). -/
def isDateInFuture (now : Int) (d : Option Int) : Bool :=
  match d with
  | some ms => decide (now < ms)
  | none => false

/-- The tag list the `filterTagList` filter removes. -/
def specialTags : List String :=
  ["article", "articles", "nav", "all"]

/-- The `filterTagList` filter of src/.eleventy.js (lines 18-20):
`(tags || []).filter(tag => [...].indexOf(tag) === -1)`, with `none`
standing for a null/undefined `tags` value. -/
def filterTagList (tags : Option (List String)) : List String :=
  (tags.getD []).filter (fun tag => !(specialTags.contains tag))

/-- The run-mode override of src/.eleventy.js (lines 58-60), executed once
when the configuration module is evaluated at process start:
`if (process.env.ELEVENTY_RUN_MODE === "serve") process.env.BUILD_DRAFTS = "true"`. -/
def applyServeSetup (e : Env) : Env :=
  if e.ELEVENTY_RUN_MODE == some "serve" then { e with BUILD_DRAFTS := some "true" } else e

/-- The `eleventy.before` handler of src/unnamed/part_000 (lines 57-62):
for run mode "serve" or "watch" it assigns `process.env.BUILD_DRAFTS = true`
(which `process.env` coerces to the string "true"). -/
def eleventyBeforeSetup (runMode : String) (e : Env) : Env :=
  if runMode == "serve" || runMode == "watch" then { e with BUILD_DRAFTS := some "true" } else e

/-! ### Helper lemmas (shared across claims) -/

theorem dateDescLE_trans : ∀ (a b c : ContentItem),
    dateDescLE a b → dateDescLE b c → dateDescLE a c := by
  intro a b c hab hbc
  simp only [dateDescLE, decide_eq_true_eq] at *
  omega

theorem dateDescLE_total : ∀ (a b : ContentItem), dateDescLE a b || dateDescLE b a := by
  intro a b
  simp only [dateDescLE, Bool.or_eq_true, decide_eq_true_eq]
  omega

theorem mem_sortByDateDesc {a : ContentItem} {l : List ContentItem} :
    a ∈ sortByDateDesc l ↔ a ∈ l := by
  simp [sortByDateDesc]

theorem sortByDateDesc_perm (l : List ContentItem) : (sortByDateDesc l).Perm l :=
  List.mergeSort_perm l dateDescLE

theorem sortByDateDesc_sorted (l : List ContentItem) :
    (sortByDateDesc l).Pairwise (fun a b => b.date ≤ a.date) := by
  refine (List.sorted_mergeSort dateDescLE_trans dateDescLE_total l).imp ?_
  intro a b hab
  simpa [dateDescLE] using hab

theorem mem_articlesCollection {e : Env} {now : Int} {item : ContentItem}
    {items : List ContentItem} :
    item ∈ articlesCollection e now items ↔
      item ∈ items ∧ articleFilter e.BUILD_DRAFTS now item = true := by
  rw [articlesCollection, mem_sortByDateDesc, List.mem_filter]

theorem sortByDateDesc_filter_date (l : List ContentItem) (d : Int) :
    (sortByDateDesc l).filter (fun a => a.date == d) = l.filter (fun a => a.date == d) := by
  have hdate : ∀ a ∈ l.filter (fun a => a.date == d), a.date = d := by
    intro a ha
    simpa using (List.mem_filter.mp ha).2
  have hpw : (l.filter (fun a => a.date == d)).Pairwise (fun a b => dateDescLE a b) := by
    refine List.pairwise_of_forall_mem_list ?_
    intro a ha b hb
    simp [dateDescLE, hdate a ha, hdate b hb]
  have hsub : List.Sublist (l.filter (fun a => a.date == d)) (sortByDateDesc l) :=
    List.sublist_mergeSort dateDescLE_trans dateDescLE_total hpw (List.filter_sublist l)
  have hself : (l.filter (fun a => a.date == d)).filter (fun a => a.date == d)
      = l.filter (fun a => a.date == d) :=
    List.filter_eq_self.mpr (fun a ha => (List.mem_filter.mp ha).2)
  have hsub2 : List.Sublist (l.filter (fun a => a.date == d))
      ((sortByDateDesc l).filter (fun a => a.date == d)) := by
    have h2 := hsub.filter (fun a => a.date == d)
    rwa [hself] at h2
  have hlen : ((sortByDateDesc l).filter (fun a => a.date == d)).length
      = (l.filter (fun a => a.date == d)).length :=
    ((sortByDateDesc_perm l).filter _).length_eq
  exact (hsub2.eq_of_length hlen.symm).symm

/-! ### Concrete fixtures used by witnesses and counterexamples -/

/-- A draft item: `published` absent, valid epoch date. -/
def draftItem : ContentItem := ⟨0, some 0, none, "draft"⟩

/-- An item whose `published` frontmatter value is the number 1:
truthy, but not strictly the boolean `true`. -/
def numPublishedItem : ContentItem := ⟨0, some 0, some (.num 1), "num-published"⟩

/-- An item whose `published` frontmatter value is a non-empty string:
malformed (non-boolean) but truthy. -/
def strPublishedItem : ContentItem := ⟨0, some 0, some (.str "yes"), "str-published"⟩

/-- A published item whose frontmatter date is missing or unparseable. -/
def noDateItem : ContentItem := ⟨0, none, some (.bool true), "no-date"⟩

/-- A published item dated at instant 5. -/
def futureItem : ContentItem := ⟨5, some 5, some (.bool true), "future"⟩

/-- A production environment: `BUILD_DRAFTS` and `ELEVENTY_RUN_MODE` unset. -/
def prodEnv : Env := ⟨none, none⟩

/-- An environment with `BUILD_DRAFTS` set to the string "false". -/
def falseStringEnv : Env := ⟨some "false", none⟩

/-- An environment with `BUILD_DRAFTS` set to "true". -/
def draftsEnv : Env := ⟨some "true", none⟩

/-- The environment of a serve run, before the run-mode setup executes. -/
def serveEnv : Env := ⟨none, some "serve"⟩

/-- The environment of a watch run, before the run-mode setup executes. -/
def watchEnv : Env := ⟨none, some "watch"⟩

/-! ### More shared helper lemmas -/

theorem articlesCollection_perm_of_drafts (e : Env) (now : Int) (items : List ContentItem)
    (h : e.BUILD_DRAFTS = some "true") : (articlesCollection e now items).Perm items := by
  have hfilt : items.filter (articleFilter e.BUILD_DRAFTS now) = items :=
    List.filter_eq_self.mpr (fun a _ => by simp [articleFilter, h])
  rw [articlesCollection, hfilt]
  exact sortByDateDesc_perm items

theorem articlesCollectionLoose_perm_of_truthy (e : Env) (now : Int) (items : List ContentItem)
    (h : envTruthy e.BUILD_DRAFTS = true) : (articlesCollectionLoose e now items).Perm items := by
  have hfilt : items.filter (articleFilterLoose e.BUILD_DRAFTS now) = items :=
    List.filter_eq_self.mpr (fun a _ => by simp [articleFilterLoose, h])
  rw [articlesCollectionLoose, hfilt]
  exact sortByDateDesc_perm items

/-! ### Claim theorems -/

/-- C1, counterexample: in a production build (`BUILD_DRAFTS` unset), the item
whose `published` frontmatter is the number 1 — present, truthy, and not
strictly the boolean `true` — is nonetheless kept by the `articles` filter,
because line 39 of src/.eleventy.js tests truthiness, not strict
equality with `true`.  The claim as stated says every such item is excluded. -/
theorem C1_counterexample :
    numPublishedItem.published ≠ some (.bool true) ∧
    showAllArticles prodEnv = false ∧
    numPublishedItem ∈ articlesCollection prodEnv 0 [numPublishedItem] := by
  refine ⟨by decide, rfl, ?_⟩
  rw [mem_articlesCollection]
  exact ⟨by decide, by decide⟩

/-- C1 (amended): when `showAllArticles` is false, every item whose
`published` frontmatter field is absent or falsy (`false`, `0`, the empty
string) is excluded from the `articles` collection output; truthiness, not
strict equality with `true`, is what the filter tests. -/
theorem C1_falsy_published_excluded (e : Env) (now : Int) (item : ContentItem)
    (items : List ContentItem) (hmode : showAllArticles e = false)
    (hpub : item.published = none ∨ ∃ v, item.published = some v ∧ v.truthy = false) :
    item ∉ articlesCollection e now items := by
  intro hmem
  have h := (mem_articlesCollection.mp hmem).2
  have hbd : (e.BUILD_DRAFTS == some "true") = false := hmode
  rcases hpub with hnone | ⟨v, hv, hvf⟩
  · simp [articleFilter, hbd, hnone] at h
  · simp [articleFilter, hbd, publishedTruthy, hv, hvf] at h

/-- C1, witness: the draft item (absent `published`) is excluded from the
production `articles` collection. -/
theorem C1_witness : draftItem ∉ articlesCollection prodEnv 0 [draftItem] :=
  C1_falsy_published_excluded prodEnv 0 draftItem [draftItem] rfl (Or.inl rfl)

/-- C2: when `showAllArticles` is false, an item with a valid frontmatter
date strictly after the clock reading is excluded from the `articles`
collection (whatever its `published` value), and an item with
`published` strictly `true` and date at or before the clock reading is kept. -/
theorem C2_date_window (e : Env) (now d : Int) (item : ContentItem)
    (items : List ContentItem) (hmode : showAllArticles e = false)
    (hd : item.dataDate = some d) :
    (now < d → item ∉ articlesCollection e now items) ∧
    (item.published = some (.bool true) → d ≤ now → item ∈ items →
      item ∈ articlesCollection e now items) := by
  have hbd : (e.BUILD_DRAFTS == some "true") = false := hmode
  constructor
  · intro hfuture hmem
    have h := (mem_articlesCollection.mp hmem).2
    simp [articleFilter, hbd, nowGeDate, hd] at h
    omega
  · intro hpub hle hmem
    rw [mem_articlesCollection]
    refine ⟨hmem, ?_⟩
    simp [articleFilter, hbd, nowGeDate, hd, publishedTruthy, hpub, Val.truthy, hle]

/-- C2, witness: the published item dated at instant 5 is excluded when the
clock reads 3. -/
theorem C2_witness : futureItem ∉ articlesCollection prodEnv 3 [futureItem] :=
  (C2_date_window prodEnv 3 5 futureItem [futureItem] rfl rfl).1 (by decide)

/-- C3: when `showAllArticles` is true, the `articles` collection returns
every input item (a permutation of the input), sorted non-increasing by
date, regardless of `published` flags or dates. -/
theorem C3_show_all_returns_everything (e : Env) (now : Int) (items : List ContentItem)
    (hmode : showAllArticles e = true) :
    (articlesCollection e now items).Perm items ∧
    (articlesCollection e now items).Pairwise (fun a b => b.date ≤ a.date) := by
  have hbd : e.BUILD_DRAFTS = some "true" := by
    have h : (e.BUILD_DRAFTS == some "true") = true := hmode
    simpa using h
  constructor
  · exact articlesCollection_perm_of_drafts e now items hbd
  · rw [articlesCollection]
    exact sortByDateDesc_sorted _

/-- C3, witness: with `BUILD_DRAFTS="true"` the draft item is returned. -/
theorem C3_witness :
    (articlesCollection draftsEnv 0 [draftItem]).Perm [draftItem] ∧
    (articlesCollection draftsEnv 0 [draftItem]).Pairwise (fun a b => b.date ≤ a.date) :=
  C3_show_all_returns_everything draftsEnv 0 [draftItem] rfl

/-- C4: the `articles` collection output is sorted non-increasing by date,
and items with equal dates keep their relative order from the filtered
input (stability of the sort), so the output is deterministic for a fixed
snapshot. -/
theorem C4_sorted_and_stable (e : Env) (now : Int) (items : List ContentItem) :
    (articlesCollection e now items).Pairwise (fun a b => b.date ≤ a.date) ∧
    ∀ d : Int, (articlesCollection e now items).filter (fun a => a.date == d)
      = (items.filter (articleFilter e.BUILD_DRAFTS now)).filter (fun a => a.date == d) := by
  constructor
  · rw [articlesCollection]
    exact sortByDateDesc_sorted _
  · intro d
    rw [articlesCollection]
    exact sortByDateDesc_filter_date _ d

/-- C5: the `latestArticles` collection equals the `articles` collection
truncated to its first 9 elements (for the same input, environment and
clock reading); the parameterized `selectLatest` returns the empty list at
limit 0 and the whole filtered sequence whenever the limit is at least its
length. -/
theorem C5_latest_is_truncation (e : Env) (now : Int) (items : List ContentItem) (k : Nat) :
    latestArticlesCollection e now items = (articlesCollection e now items).take 9 ∧
    latestArticlesCollection e now items = selectLatest e now items 9 ∧
    selectLatest e now items 0 = [] ∧
    selectLatest e now items ((articlesCollection e now items).length + k)
      = articlesCollection e now items := by
  refine ⟨rfl, rfl, rfl, ?_⟩
  exact List.take_of_length_le (Nat.le_add_right _ _)

/-- C6, counterexample: the item whose `published` frontmatter is the
non-empty string "yes" is a malformed (non-boolean) `published` field, yet
line 39 of src/.eleventy.js keeps it in a production build because the
value is truthy; the claim as stated says every item with a malformed
`published` field is excluded. -/
theorem C6_counterexample :
    strPublishedItem.published = some (.str "yes") ∧
    showAllArticles prodEnv = false ∧
    strPublishedItem ∈ articlesCollection prodEnv 0 [strPublishedItem] := by
  refine ⟨rfl, rfl, ?_⟩
  rw [mem_articlesCollection]
  exact ⟨by decide, by decide⟩

/-- C6 (amended): the filter is total and never raises a fault; when
`showAllArticles` is false, an item with a missing or unparseable `date`,
or with a missing or falsy `published` field (`false`, `0`, the empty
string), is excluded (fail-closed); a malformed but truthy `published`
value, however, is treated as published rather than excluded. -/
theorem C6_fail_closed (e : Env) (now : Int) (item : ContentItem)
    (items : List ContentItem) (hmode : showAllArticles e = false)
    (hmal : item.dataDate = none ∨ item.published = none ∨
      ∃ v, item.published = some v ∧ v.truthy = false) :
    item ∉ articlesCollection e now items := by
  intro hmem
  have h := (mem_articlesCollection.mp hmem).2
  have hbd : (e.BUILD_DRAFTS == some "true") = false := hmode
  rcases hmal with hdate | hpub | ⟨v, hv, hvf⟩
  · simp [articleFilter, hbd, nowGeDate, hdate] at h
  · simp [articleFilter, hbd, hpub] at h
  · simp [articleFilter, hbd, publishedTruthy, hv, hvf] at h

/-- C6, witness: the published item with a missing/unparseable date is
excluded from the production `articles` collection. -/
theorem C6_witness : noDateItem ∉ articlesCollection prodEnv 0 [noDateItem] :=
  C6_fail_closed prodEnv 0 noDateItem [noDateItem] rfl (Or.inl rfl)

/-- C7, counterexample: for a missing/unparseable date both `isDateInFuture`
and the date test of the `articles` filter return false, so
`isDateInFuture` is not the exact negation of the filter condition on such
values, contrary to the claim. -/
theorem C7_counterexample : ¬ (isDateInFuture 0 none = !(nowGeDate 0 none)) := by
  decide

/-- C7 (amended): on every valid (parseable) date value `isDateInFuture`
is the exact negation of the `now >= articleDate` test of the `articles`
filter, for every clock instant; on a missing/unparseable date both
predicates return false. -/
theorem C7_badge_negates_filter (now ms : Int) :
    (isDateInFuture now (some ms) = !(nowGeDate now (some ms))) ∧
    isDateInFuture now none = false ∧ nowGeDate now none = false := by
  refine ⟨?_, rfl, rfl⟩
  simp only [isDateInFuture, nowGeDate, ← decide_not, decide_eq_decide]
  omega

/-- C8, counterexample: a watch run (`ELEVENTY_RUN_MODE="watch"`) is an
interactive preview/watch session, yet the run-mode override of
src/.eleventy.js (lines 58-60) only fires for "serve": after setup the
`BUILD_DRAFTS` flag is still unset and a filtering call in that run
excludes the draft item, contrary to the claim. -/
theorem C8_counterexample :
    (applyServeSetup watchEnv).BUILD_DRAFTS ≠ some "true" ∧
    draftItem ∉ articlesCollection (applyServeSetup watchEnv) 0 [draftItem] := by
  refine ⟨by decide, ?_⟩
  intro hmem
  have h := (mem_articlesCollection.mp hmem).2
  revert h
  decide

/-- C8 (amended): in src/.eleventy.js a run with `ELEVENTY_RUN_MODE="serve"`
(and only "serve"; plain watch runs are not covered) forces `BUILD_DRAFTS`
to "true" at process start, and since nothing later modifies it, every
filtering call of the run returns all of its input items; in
src/unnamed/part_000 the `eleventy.before` handler does the same for both
"serve" and "watch" runs. -/
theorem C8_preview_forces_show_all (e : Env) (runMode : String)
    (calls : List (Int × List ContentItem))
    (hserve : e.ELEVENTY_RUN_MODE = some "serve")
    (hpreview : runMode = "serve" ∨ runMode = "watch") :
    (applyServeSetup e).BUILD_DRAFTS = some "true" ∧
    (∀ c ∈ calls, (articlesCollection (applyServeSetup e) c.1 c.2).Perm c.2) ∧
    (eleventyBeforeSetup runMode e).BUILD_DRAFTS = some "true" ∧
    (∀ c ∈ calls, (articlesCollectionLoose (eleventyBeforeSetup runMode e) c.1 c.2).Perm c.2) := by
  have h1 : (applyServeSetup e).BUILD_DRAFTS = some "true" := by
    simp [applyServeSetup, hserve]
  have h2 : (eleventyBeforeSetup runMode e).BUILD_DRAFTS = some "true" := by
    rcases hpreview with h | h <;> simp [eleventyBeforeSetup, h]
  refine ⟨h1, ?_, h2, ?_⟩
  · intro c _
    exact articlesCollection_perm_of_drafts _ c.1 c.2 h1
  · intro c _
    exact articlesCollectionLoose_perm_of_truthy _ c.1 c.2 (by rw [h2]; rfl)

/-- C8, witness: a serve run with one filtering call on the draft item. -/
theorem C8_witness :
    (applyServeSetup serveEnv).BUILD_DRAFTS = some "true" ∧
    (∀ c ∈ [((0 : Int), [draftItem])],
      (articlesCollection (applyServeSetup serveEnv) c.1 c.2).Perm c.2) ∧
    (eleventyBeforeSetup "watch" serveEnv).BUILD_DRAFTS = some "true" ∧
    (∀ c ∈ [((0 : Int), [draftItem])],
      (articlesCollectionLoose (eleventyBeforeSetup "watch" serveEnv) c.1 c.2).Perm c.2) :=
  C8_preview_forces_show_all serveEnv "watch" [((0 : Int), [draftItem])] rfl (Or.inr rfl)

/-- C9, counterexample: with `BUILD_DRAFTS="false"` the two configurations
disagree on the draft item: the strict test of src/.eleventy.js applies the
publish filter and excludes it, while the truthiness test of
src/unnamed/part_000 keeps every item. -/
theorem C9_counterexample :
    articlesCollection falseStringEnv 0 [draftItem]
      ≠ articlesCollectionLoose falseStringEnv 0 [draftItem] := by
  have h1 : articlesCollection falseStringEnv 0 [draftItem] = [] := by
    rw [articlesCollection]
    have hf : List.filter (articleFilter falseStringEnv.BUILD_DRAFTS 0) [draftItem] = [] := by
      decide
    rw [hf, sortByDateDesc, List.mergeSort_nil]
  have h2 : articlesCollectionLoose falseStringEnv 0 [draftItem] = [draftItem] := by
    rw [articlesCollectionLoose]
    have hf : List.filter (articleFilterLoose falseStringEnv.BUILD_DRAFTS 0) [draftItem]
        = [draftItem] := by
      decide
    rw [hf, sortByDateDesc, List.mergeSort_singleton]
  rw [h1, h2]
  intro hcontra
  cases hcontra

/-- C9 (amended): the two `articles` collection filters select the same
items whenever `BUILD_DRAFTS` is unset, the empty string, or exactly
"true" — but not in general: for any other non-empty value the
src/unnamed/part_000 filter keeps every item while src/.eleventy.js
applies the publish test. -/
theorem C9_agree_on_canonical_flag (e : Env) (now : Int) (items : List ContentItem)
    (h : e.BUILD_DRAFTS = none ∨ e.BUILD_DRAFTS = some "" ∨ e.BUILD_DRAFTS = some "true") :
    articlesCollection e now items = articlesCollectionLoose e now items := by
  have hpred : articleFilter e.BUILD_DRAFTS now = articleFilterLoose e.BUILD_DRAFTS now := by
    funext a
    rcases h with h | h | h <;> rw [h] <;> rfl
  rw [articlesCollection, articlesCollectionLoose, hpred]

/-- C9, witness: with `BUILD_DRAFTS` unset the two collections agree on the
draft item. -/
theorem C9_witness :
    articlesCollection prodEnv 0 [draftItem] = articlesCollectionLoose prodEnv 0 [draftItem] :=
  C9_agree_on_canonical_flag prodEnv 0 [draftItem] (Or.inl rfl)

/-- C10: `filterTagList` maps a null/undefined tag list to the empty list,
returns a subsequence of its input (so relative order is preserved), and
keeps exactly the occurrences of tags other than "article", "articles",
"nav" and "all". -/
theorem C10_filterTagList_removes_special (l : List String) :
    filterTagList none = [] ∧
    List.Sublist (filterTagList (some l)) l ∧
    (∀ t : String, (filterTagList (some l)).count t
      = if t ∈ specialTags then 0 else l.count t) := by
  refine ⟨rfl, List.filter_sublist l, ?_⟩
  intro t
  by_cases ht : t ∈ specialTags
  · rw [if_pos ht, List.count_eq_zero]
    intro hmem
    have hkeep := (List.mem_filter.mp hmem).2
    simp at hkeep
    exact hkeep ht
  · rw [if_neg ht]
    exact List.count_filter (by simp [ht])
